import Mathlib

/-!
Verification of the matching & scoring engine of the ggwellcode backend.

The development shallowly embeds the scoring subsystem:

* the Gemini AI service of server.js (constructor key validation,
  scoreProvider with its demo-mode short circuit and fallback,
  parseAIResponse, getFallbackProviderScore, findBestMatches,
  generateMatchingInsights);
* the OpenAI utility module (fallbackJobMatching with its Math.random
  variety factor, the validation/clamping step of matchJobWithProviders);
* the geo utility module (calculateDistance via the Haversine formula,
  findNearbyProviders).

JavaScript numbers are modelled as rationals where the code only performs
field arithmetic on inputs (scores, ratings), and as real numbers where
trigonometry is involved (geo distances).  JavaScript objects produced by
JSON.parse are modelled as association lists of string keys.  Wall-clock
metadata fields (apiCallDuration, analyzedAt) and console logging are not
modelled; they do not affect any data considered here.
-/

/-- Left brace character, written via its code point. -/
def lbrace : Char := Char.ofNat 123

/-- Right brace character, written via its code point. -/
def rbrace : Char := Char.ofNat 125

/-- Double-quote character. -/
def dquote : Char := Char.ofNat 34

/-- A JSON-like value as produced by JSON.parse on the flat responses the
AI service consumes: numbers, strings, booleans and arrays.  Nested
objects are not modelled; the concrete response texts considered in the
theorems below are flat. -/
inductive JVal where
  | num (q : ℚ)
  | str (s : String)
  | bool (b : Bool)
  | arr (xs : List JVal)

/-- Boolean equality test on JSON values (structural). -/
def JVal.beq : JVal → JVal → Bool
  | .num a, .num b => a == b
  | .str a, .str b => a == b
  | .bool a, .bool b => a == b
  | .arr as, .arr bs => goList as bs
  | _, _ => false
where
  goList : List JVal → List JVal → Bool
    | [], [] => true
    | x :: xs, y :: ys => JVal.beq x y && goList xs ys
    | _, _ => false

/-- Soundness of the boolean equality test, giving decidable equality. -/
def JVal.beqIff : (a b : JVal) → (JVal.beq a b = true ↔ a = b)
  | .num _, .num _ => by simp [JVal.beq]
  | .num _, .str _ => by simp [JVal.beq]
  | .num _, .bool _ => by simp [JVal.beq]
  | .num _, .arr _ => by simp [JVal.beq]
  | .str _, .num _ => by simp [JVal.beq]
  | .str _, .str _ => by simp [JVal.beq]
  | .str _, .bool _ => by simp [JVal.beq]
  | .str _, .arr _ => by simp [JVal.beq]
  | .bool _, .num _ => by simp [JVal.beq]
  | .bool _, .str _ => by simp [JVal.beq]
  | .bool _, .bool _ => by simp [JVal.beq]
  | .bool _, .arr _ => by simp [JVal.beq]
  | .arr _, .num _ => by simp [JVal.beq]
  | .arr _, .str _ => by simp [JVal.beq]
  | .arr _, .bool _ => by simp [JVal.beq]
  | .arr as, .arr bs => by
      rw [show JVal.beq (.arr as) (.arr bs) = JVal.beq.goList as bs from rfl]
      exact (goListIff as bs).trans (by simp)
where
  goListIff : (as bs : List JVal) → (JVal.beq.goList as bs = true ↔ as = bs)
    | [], [] => by simp [JVal.beq.goList]
    | [], _ :: _ => by simp [JVal.beq.goList]
    | _ :: _, [] => by simp [JVal.beq.goList]
    | x :: xs, y :: ys => by
        simp [JVal.beq.goList, Bool.and_eq_true, JVal.beqIff x y, goListIff xs ys]

instance : DecidableEq JVal := fun a b => decidable_of_iff _ (JVal.beqIff a b)

/-- A JavaScript object: an association list from string keys to values,
in property-insertion order. -/
abbrev JObj := List (String × JVal)

/-- Property lookup, first matching key wins (objects built here never
hold duplicate keys). -/
def JObj.lookup? : JObj → String → Option JVal
  | [], _ => none
  | (k1, v) :: rest, k => if k1 = k then some v else JObj.lookup? rest k

/-- Property assignment with JavaScript object-literal semantics: an
existing key keeps its position and gets the new value, a new key is
appended at the end.  This models a spread followed by a literal
property, as in the aiScore construction of scoreProvider. -/
def JObj.set : JObj → String → JVal → JObj
  | [], k, v => [(k, v)]
  | (k1, v1) :: rest, k, v =>
      if k1 = k then (k1, v) :: rest else (k1, v1) :: JObj.set rest k v

/-- JSON whitespace. -/
def isWsChar (c : Char) : Bool := c = ' ' || c = '\n' || c = '\t' || c = '\r'

/-- Drop leading whitespace. -/
def skipWs : List Char → List Char
  | [] => []
  | c :: cs => if isWsChar c then skipWs cs else c :: cs

/-- Split off a maximal run of leading decimal digits. -/
def takeDigits : List Char → List Char × List Char
  | [] => ([], [])
  | c :: cs =>
      if c.isDigit then
        let p := takeDigits cs
        (c :: p.1, p.2)
      else ([], c :: cs)

/-- Numeric value of a digit run. -/
def digitsToNat (ds : List Char) : Nat :=
  ds.foldl (fun n c => n * 10 + (c.toNat - 48)) 0

/-- Parse an integer literal (optional leading minus).  Fractional and
exponent forms are not modelled; the numeric fields exercised here are
integers. -/
def parseNum : List Char → Option (ℚ × List Char)
  | '-' :: cs =>
      match takeDigits cs with
      | ([], _) => none
      | (ds, rest) => some (-(digitsToNat ds : ℚ), rest)
  | cs =>
      match takeDigits cs with
      | ([], _) => none
      | (ds, rest) => some ((digitsToNat ds : ℚ), rest)

/-- Consume characters up to the next closing quote.  Escape sequences
are not modelled; the concrete texts considered contain none. -/
def takeUntilQuote : List Char → Option (List Char × List Char)
  | [] => none
  | c :: cs =>
      if c = dquote then some ([], cs)
      else
        match takeUntilQuote cs with
        | none => none
        | some (s, rest) => some (c :: s, rest)

/-- Parse a string literal. -/
def parseStrLit (cs : List Char) : Option (String × List Char) :=
  match cs with
  | c :: cs1 =>
      if c = dquote then
        match takeUntilQuote cs1 with
        | some (s, rest) => some (String.mk s, rest)
        | none => none
      else none
  | [] => none

/-- Parse a scalar JSON value: string, boolean or integer. -/
def parseScalar (cs : List Char) : Option (JVal × List Char) :=
  match parseStrLit cs with
  | some (s, rest) => some (.str s, rest)
  | none =>
      if cs.take 4 = "true".toList then some (.bool true, cs.drop 4)
      else if cs.take 5 = "false".toList then some (.bool false, cs.drop 5)
      else
        match parseNum cs with
        | some (q, rest) => some (.num q, rest)
        | none => none

/-- Parse one or more comma-separated scalar array elements.  Fuelled by
the input length. -/
def parseElems : Nat → List Char → Option (List JVal × List Char)
  | 0, _ => none
  | fuel + 1, cs =>
      match parseScalar (skipWs cs) with
      | none => none
      | some (v, rest) =>
          match skipWs rest with
          | ',' :: rest2 =>
              match parseElems fuel rest2 with
              | some (vs, rest3) => some (v :: vs, rest3)
              | none => none
          | other => some ([v], other)

/-- Parse an array of scalars. -/
def parseArr (cs : List Char) : Option (JVal × List Char) :=
  match cs with
  | '[' :: rest =>
      match skipWs rest with
      | ']' :: rest2 => some (.arr [], rest2)
      | rest1 =>
          match parseElems (rest1.length + 1) rest1 with
          | some (vs, rest2) =>
              match skipWs rest2 with
              | ']' :: rest3 => some (.arr vs, rest3)
              | _ => none
          | none => none
  | _ => none

/-- Parse a JSON value: an array or a scalar. -/
def parseVal (cs : List Char) : Option (JVal × List Char) :=
  match parseArr cs with
  | some r => some r
  | none => parseScalar cs

/-- Parse one key/value member. -/
def parsePair (cs : List Char) : Option ((String × JVal) × List Char) :=
  match parseStrLit (skipWs cs) with
  | none => none
  | some (k, rest) =>
      match skipWs rest with
      | ':' :: rest1 =>
          match parseVal (skipWs rest1) with
          | some (v, rest2) => some ((k, v), rest2)
          | none => none
      | _ => none

/-- Parse one or more comma-separated members.  Fuelled by the input
length. -/
def parseMembers : Nat → List Char → Option (List (String × JVal) × List Char)
  | 0, _ => none
  | fuel + 1, cs =>
      match parsePair cs with
      | none => none
      | some (kv, rest) =>
          match skipWs rest with
          | ',' :: rest1 =>
              match parseMembers fuel rest1 with
              | some (kvs, rest2) => some (kv :: kvs, rest2)
              | none => none
          | other => some ([kv], other)

/-- Fold parsed members into an object; a duplicate key keeps its first
position with its last value, as JSON.parse does. -/
def buildObj (kvs : List (String × JVal)) : JObj :=
  kvs.foldl (fun o kv => o.set kv.1 kv.2) []

/-- Model of JSON.parse restricted to a single flat object of scalar or
scalar-array members, which is the shape the scoring prompt requests.
Texts outside this fragment (for example nested objects) parse to none.
The whole input must be consumed apart from surrounding whitespace,
as JSON.parse requires. -/
def jsonParse (s : String) : Option JObj :=
  match skipWs s.toList with
  | c :: rest =>
      if c = lbrace then
        match skipWs rest with
        | c1 :: rest2 =>
            if c1 = rbrace then
              if skipWs rest2 = [] then some [] else none
            else
              match parseMembers ((c1 :: rest2).length + 1) (c1 :: rest2) with
              | some (kvs, rest3) =>
                  match skipWs rest3 with
                  | c2 :: rest4 =>
                      if c2 = rbrace ∧ skipWs rest4 = [] then some (buildObj kvs)
                      else none
                  | [] => none
              | none => none
        | [] => none
      else none
  | [] => none

/-- Index of the last closing brace of a character list. -/
def lastRBraceIdx (cs : List Char) : Option Nat :=
  ((cs.enum.filter fun p => p.2 == rbrace).map fun p => p.1).getLast?

/-- The span matched by the greedy regular expression of parseAIResponse,
which captures from the first opening brace to the last closing brace
whenever an opening brace is followed, anywhere later, by a closing
brace. -/
def braceSpan (text : String) : Option String :=
  let cs := text.toList
  match lastRBraceIdx cs with
  | none => none
  | some j =>
      match (cs.take j).findIdx? (fun c => c == lbrace) with
      | none => none
      | some i => some (String.mk ((cs.drop i).take (j - i + 1)))

/-- The unstructured-text wrapper of GeminiAIService.textToStructuredData. -/
def textToStructuredData (text : String) : JObj :=
  [("analysis", .str text), ("structured", .bool false), ("confidence", .num (7/10))]

/-- The parse-error object of GeminiAIService.getDefaultStructure. -/
def getDefaultStructure : JObj :=
  [("error", .str "Unable to parse AI response"), ("fallback", .bool true)]

/-- GeminiAIService.parseAIResponse: extract the greedy brace span and
JSON-parse it; a missing span wraps the raw text, a failing parse yields
the default error structure. -/
def parseAIResponse (text : String) : JObj :=
  match braceSpan text with
  | some s =>
      match jsonParse s with
      | some obj => obj
      | none => getDefaultStructure
  | none => textToStructuredData text

/-- A provider snapshot as consumed by GeminiAIService scoring: the
opaque id, the star rating (0..5 scale in the data model) and the years
of experience.  Fields only interpolated into the prompt text are
omitted. -/
structure GProvider where
  id : String
  rating : ℚ
  yearsExperience : ℚ
deriving DecidableEq

/-- The project requirements object passed to provider scoring; its
fields are only interpolated into the prompt, so a minimal record
suffices. -/
structure ProjectRequirements where
  detectedServices : List String
  complexityScore : ℚ
deriving DecidableEq

/-- JavaScript Math.min on two numbers. -/
def jsMin (a b : ℚ) : ℚ := if a ≤ b then a else b

/-- JavaScript Math.max on two numbers. -/
def jsMax (a b : ℚ) : ℚ := if a ≤ b then b else a

/-- JavaScript Math.round: round half toward positive infinity, written
with the computable rational floor. -/
def jsRound (q : ℚ) : ℚ := ((q + 1/2).floor : ℤ)

/-- Key validation of the GeminiAIService constructor: the key is truthy,
differs from the demo placeholder, starts with AIza and is longer than
30 characters.  String operations are modelled on the character list. -/
def isValidKey (apiKey : String) : Bool :=
  (apiKey != "") && (apiKey != "demo-key") &&
    (apiKey.toList.take 4 == "AIza".toList) && decide (apiKey.toList.length > 30)

/-- The constructor's apiKey expression: the environment value with the
demo placeholder as fallback for a missing or empty variable. -/
def constructorApiKey (env : Option String) : String :=
  match env with
  | some s => if s = "" then "demo-key" else s
  | none => "demo-key"

/-- The constructor's demo-mode flag: set exactly when the key is not
valid. -/
def isDemoMode (env : Option String) : Bool :=
  !(isValidKey (constructorApiKey env))

/-- The scoring result object: success flag, provider id and the aiScore
object.  The analyzedAt timestamp of the success path is wall-clock
metadata and is not modelled. -/
structure ScoreResult where
  success : Bool
  providerId : String
  aiScore : JObj
deriving DecidableEq

set_option linter.unusedVariables false in
/-- GeminiAIService.getFallbackProviderScore: the deterministic fallback
score derived from the provider's rating and experience.  The
requirements argument is accepted and ignored, as in the source. -/
def getFallbackProviderScore (provider : GProvider)
    (requirements : ProjectRequirements) : ScoreResult :=
  let baseScore : ℚ := provider.rating / 5 * 100
  { success := true
    providerId := provider.id
    aiScore :=
      [("overallScore", .num (jsRound baseScore)),
       ("skillMatch", .num 75),
       ("experienceScore", .num (jsMin (provider.yearsExperience * 5) 100)),
       ("reliabilityScore", .num (jsRound baseScore)),
       ("recommendation", .str (if baseScore > 80 then "RECOMMENDED" else "CONSIDER")),
       ("matchReason", .str "Basic compatibility analysis"),
       ("successProbability", .num (jsRound baseScore)),
       ("fallback", .bool true)] }

/-- Outcome of one external model invocation, decided by the
environment: the response text, or a thrown error (network failure,
timeout). -/
inductive AICall where
  | ok (text : String)
  | failure
deriving DecidableEq

/-- GeminiAIService.scoreProvider.  The demo-mode branch returns the
fallback before any network use; otherwise the model call either throws
(caught, falling back) or yields text that is parsed and spread into the
aiScore object together with the realAI tag.  The second component
records whether a network attempt was made.  The apiCallDuration
metadata field is not modelled. -/
def scoreProvider (demoMode : Bool) (provider : GProvider)
    (requirements : ProjectRequirements) (call : AICall) : ScoreResult × Bool :=
  if demoMode then (getFallbackProviderScore provider requirements, false)
  else
    match call with
    | .failure => (getFallbackProviderScore provider requirements, true)
    | .ok text =>
        ({ success := true
           providerId := provider.id
           aiScore := (parseAIResponse text).set "realAI" (.bool true) }, true)

/-- The numeric overallScore of a result, defaulting to zero.  After the
qualification filter every result has a numeric overallScore, so the
default is never consulted where this key is used for ordering. -/
def scoreKey (s : ScoreResult) : ℚ :=
  match s.aiScore.lookup? "overallScore" with
  | some (.num q) => q
  | _ => 0

/-- The comparison overallScore greater-or-equal 60 with JavaScript
semantics: a missing or non-numeric field compares false. -/
def overallAtLeast60 (v : Option JVal) : Bool :=
  match v with
  | some (.num q) => decide (60 ≤ q)
  | _ => false

/-- The qualification predicate of findBestMatches: a successful result
whose overallScore is at least 60. -/
def qualifies (s : ScoreResult) : Bool :=
  s.success && overallAtLeast60 (s.aiScore.lookup? "overallScore")

/-- Ordering used by the findBestMatches sort: descending by
overallScore.  The relation holds when the right score is at most the
left score. -/
def scoreGe (a b : ScoreResult) : Prop := scoreKey b ≤ scoreKey a

instance : DecidableRel scoreGe := fun a b =>
  inferInstanceAs (Decidable (scoreKey b ≤ scoreKey a))

instance : IsTotal ScoreResult scoreGe :=
  ⟨fun a b => le_total (scoreKey b) (scoreKey a)⟩

instance : IsTrans ScoreResult scoreGe :=
  ⟨fun _ _ _ hab hbc => le_trans hbc hab⟩

/-- The sort stage of findBestMatches.  JavaScript Array.prototype.sort
with comparator on overallScore is required to be stable (ES2019); a
stable sort's output is determined by the comparator and input order, so
insertion sort, which is stable, models it exactly. -/
def sortMatches (l : List ScoreResult) : List ScoreResult :=
  List.insertionSort scoreGe l

/-- The filter, sort and truncation pipeline of findBestMatches applied
to the per-provider scoring results: keep successful results scoring at
least 60, sort descending by overallScore, keep the first ten. -/
def rankMatches (providerScores : List ScoreResult) : List ScoreResult :=
  (sortMatches (providerScores.filter qualifies)).take 10

/-- Display form of a rational, used only inside insight strings that no
property inspects; it approximates JavaScript number printing. -/
def ratText (q : ℚ) : String :=
  if q.den = 1 then toString q.num else toString q.num ++ "/" ++ toString q.den

/-- Display form of an optional JSON value inside a template literal; a
missing property renders as undefined, as in JavaScript. -/
def optText (v : Option JVal) : String :=
  match v with
  | none => "undefined"
  | some (.str s) => s
  | some (.num q) => ratText q
  | some (.bool b) => cond b "true" "false"
  | some (.arr _) => "array"

/-- The insights object of generateMatchingInsights.  The two source
branches produce objects with different key sets; absent keys are
modelled by defaults. -/
structure Insights where
  summary : String
  recommendations : List String := []
  topRecommendation : Option JVal := none
  averageScore : Option ℚ := none
  marketHealth : Option String := none
  insightNotes : List String := []
deriving DecidableEq

/-- GeminiAIService.generateMatchingInsights: the no-qualified-providers
summary with suggestions when matches are empty, otherwise aggregate
statistics over the matched results. -/
def generateMatchingInsights (matchList : List ScoreResult) : Insights :=
  match matchList with
  | [] =>
      { summary := "No qualified providers found for this project."
        recommendations :=
          ["Expand search criteria", "Consider adjusting budget",
           "Break project into phases"] }
  | topMatch :: _ =>
      let avgScore : ℚ := (matchList.map scoreKey).sum / matchList.length
      { summary :=
          "Found " ++ toString matchList.length ++
            " qualified providers. Top match has " ++
            ratText (scoreKey topMatch) ++ "% compatibility."
        topRecommendation := topMatch.aiScore.lookup? "recommendation"
        averageScore := some (jsRound avgScore)
        marketHealth :=
          some (if matchList.length ≥ 5 then "EXCELLENT"
                else if matchList.length ≥ 3 then "GOOD" else "LIMITED")
        insightNotes :=
          ["Best match: " ++ optText (topMatch.aiScore.lookup? "matchReason"),
           "Average provider score: " ++ ratText (jsRound avgScore) ++ "%",
           "Success probability: " ++
             optText (topMatch.aiScore.lookup? "successProbability") ++ "%"] }

/-- The full return object of findBestMatches.  The source field named
matches is called matchList here because matches is a reserved word in
Lean. -/
structure MatchOutput where
  success : Bool
  matchList : List (ScoreResult × Option GProvider)
  insights : Insights
  totalAnalyzed : Nat
  qualifiedMatches : Nat
deriving DecidableEq

/-- GeminiAIService.findBestMatches: score every provider, qualify, rank
and truncate, enrich each match with its provider record, and attach the
insights.  The per-provider model-call outcomes are supplied by the
environment function.  Nothing in the modelled pipeline throws, so the
catch branch that would delegate to getFallbackMatching is
unreachable. -/
def findBestMatches (demoMode : Bool) (requirements : ProjectRequirements)
    (providers : List GProvider) (calls : GProvider → AICall) : MatchOutput :=
  let providerScores :=
    providers.map fun p => (scoreProvider demoMode p requirements (calls p)).1
  let ranked := rankMatches providerScores
  { success := true
    matchList := ranked.map fun m =>
      (m, providers.find? fun p => p.id == m.providerId)
    insights := generateMatchingInsights ranked
    totalAnalyzed := providers.length
    qualifiedMatches := ranked.length }

/-- A provider as consumed by the OpenAI utility module: the categories
of its service entries, optional ratings average and experience years
(optional chaining in the source defaults them to zero), and its badge
types. -/
structure OProvider where
  id : String
  serviceCategories : List String
  ratingsAverage : Option ℚ
  experienceYears : Option ℚ
  badgeTypes : List String
deriving DecidableEq

/-- A job request as consumed by fallbackJobMatching; only the category
participates in the score. -/
structure OJob where
  category : String
deriving DecidableEq

/-- One entry of the list returned by matchJobWithProviders or its
fallback. -/
structure JobMatch where
  providerId : String
  matchScore : ℚ
  reasons : List String
  concerns : List String
  aiGenerated : Bool
deriving DecidableEq

/-- The deterministic portion of the fallbackJobMatching score: category
match 40 points, ratings average times four, experience years times two
capped at 20, verified badge 10 points. -/
def fallbackScoreBase (jobRequest : OJob) (provider : OProvider) : ℚ :=
  (if provider.serviceCategories.contains jobRequest.category then 40 else 0)
    + (provider.ratingsAverage.getD 0) * 4
    + jsMin 20 ((provider.experienceYears.getD 0) * 2)
    + (if provider.badgeTypes.contains "verified" then 10 else 0)

/-- One mapped entry of fallbackJobMatching: the deterministic base plus
the Math.random variety factor scaled by ten, rounded.  The randDraw
argument is the value returned by Math.random for this provider, a
number in the interval from zero inclusive to one exclusive. -/
def fallbackMatchEntry (jobRequest : OJob) (provider : OProvider)
    (randDraw : ℚ) : JobMatch :=
  { providerId := provider.id
    matchScore := jsRound (fallbackScoreBase jobRequest provider + randDraw * 10)
    reasons := ["Category match", "Experience", "Rating"]
    concerns := []
    aiGenerated := false }

/-- Ordering used by the job-match sorts: descending by matchScore. -/
def matchGe (a b : JobMatch) : Prop := b.matchScore ≤ a.matchScore

instance : DecidableRel matchGe := fun a b =>
  inferInstanceAs (Decidable (b.matchScore ≤ a.matchScore))

instance : IsTotal JobMatch matchGe :=
  ⟨fun a b => le_total b.matchScore a.matchScore⟩

instance : IsTrans JobMatch matchGe :=
  ⟨fun _ _ _ hab hbc => le_trans hbc hab⟩

/-- The fallbackJobMatching function of the OpenAI utility module: map
each provider to a scored entry, sort descending by score, keep the top
three.  The stream of Math.random draws is passed explicitly, indexed by
the position of the provider in the input list (the order in which the
source invokes Math.random). -/
def fallbackJobMatching (rand : Nat → ℚ) (jobRequest : OJob)
    (providers : List OProvider) : List JobMatch :=
  (List.insertionSort matchGe
      (providers.enum.map fun p => fallbackMatchEntry jobRequest p.2 (rand p.1))).take 3

/-- One entry of the matches array parsed from an AI matching response,
before validation. -/
structure RawMatch where
  providerId : String
  matchScore : ℚ
  reasons : Option (List String)
  concerns : Option (List String)
deriving DecidableEq

/-- The validation step of matchJobWithProviders applied to the parsed
AI matches: drop entries whose providerId or matchScore is falsy (the
empty string, respectively zero), clamp the score into the range zero to
one hundred, default the lists, sort descending and keep the top
three. -/
def validateMatches (aiMatches : List RawMatch) : List JobMatch :=
  (List.insertionSort matchGe
      ((aiMatches.filter fun m => m.providerId != "" && m.matchScore != 0).map
        fun m =>
          { providerId := m.providerId
            matchScore := jsMax 0 (jsMin 100 m.matchScore)
            reasons := m.reasons.getD []
            concerns := m.concerns.getD []
            aiGenerated := true })).take 3

/-- Degree-to-radian conversion of the geo utility module. -/
noncomputable def toRadians (degrees : ℝ) : ℝ := degrees * (Real.pi / 180)

open Classical in
/-- JavaScript Math.atan2 on real arguments (the NaN cases do not arise
for the square-root arguments produced below). -/
noncomputable def atan2 (y x : ℝ) : ℝ :=
  if 0 < x then Real.arctan (y / x)
  else if x < 0 then
    (if 0 ≤ y then Real.arctan (y / x) + Real.pi
     else Real.arctan (y / x) - Real.pi)
  else
    (if 0 < y then Real.pi / 2 else if y < 0 then -(Real.pi / 2) else 0)

/-- The intermediate value a of calculateDistance: the Haversine
half-chord quantity. -/
noncomputable def haversineA (lat1 lng1 lat2 lng2 : ℝ) : ℝ :=
  let dLat := toRadians (lat2 - lat1)
  let dLng := toRadians (lng2 - lng1)
  Real.sin (dLat / 2) * Real.sin (dLat / 2) +
    Real.cos (toRadians lat1) * Real.cos (toRadians lat2) *
      Real.sin (dLng / 2) * Real.sin (dLng / 2)

/-- Rounding to two decimal places as in the source: multiply by one
hundred, Math.round, divide by one hundred. -/
noncomputable def jsRound2 (x : ℝ) : ℝ := (⌊x * 100 + 1/2⌋ : ℤ) / 100

/-- The calculateDistance function of the geo utility module: Haversine
distance on an Earth radius of 6371 km, rounded to two decimals. -/
noncomputable def calculateDistance (lat1 lng1 lat2 lng2 : ℝ) : ℝ :=
  let a := haversineA lat1 lng1 lat2 lng2
  let c := 2 * atan2 (Real.sqrt a) (Real.sqrt (1 - a))
  jsRound2 (6371 * c)

/-- A provider as consumed by findNearbyProviders: optional coordinates
and the self-declared service radius of the data model.  The service
radius is carried to state the specification's claim about it; the
source function never reads it. -/
structure GeoProvider where
  id : String
  coords : Option (ℝ × ℝ)
  serviceRadiusKm : ℝ

/-- One entry of the findNearbyProviders result: the provider together
with its computed distance.  The display-only distanceText field is not
modelled. -/
structure NearbyResult where
  provider : GeoProvider
  distance : ℝ

/-- Ascending ordering by distance used by the findNearbyProviders
sort. -/
def distLe (a b : NearbyResult) : Prop := a.distance ≤ b.distance

noncomputable instance : DecidableRel distLe := fun a b =>
  Classical.propDecidable (a.distance ≤ b.distance)

instance : IsTotal NearbyResult distLe :=
  ⟨fun a b => le_total a.distance b.distance⟩

instance : IsTrans NearbyResult distLe :=
  ⟨fun _ _ _ hab hbc => le_trans hab hbc⟩

open Classical in
/-- The findNearbyProviders function of the geo utility module: map each
provider to its distance from the center (a missing or falsy latitude or
longitude maps to null, so a zero coordinate is dropped by the source's
truthiness test), drop the nulls and every provider farther than
radiusKm (inclusive boundary), and sort ascending by distance.  The call
sites use the default radius of 15 km unless a radius is supplied. -/
noncomputable def findNearbyProviders (centerLat centerLng : ℝ)
    (providers : List GeoProvider) (radiusKm : ℝ) : List NearbyResult :=
  List.insertionSort distLe
    (((providers.filterMap fun p =>
        match p.coords with
        | some c =>
            if c.1 = 0 ∨ c.2 = 0 then none
            else some { provider := p
                        distance := calculateDistance centerLat centerLng c.1 c.2 }
        | none => none)).filter fun r => decide (r.distance ≤ radiusKm))

/-- Setting one key leaves the lookup of any other key unchanged. -/
theorem JObj.lookup_set_ne (o : JObj) (k k1 : String) (v : JVal)
    (h : k1 ≠ k) : (o.set k v).lookup? k1 = o.lookup? k1 := by
  have hne : ¬(k = k1) := fun hk => h hk.symm
  induction o with
  | nil => simp [JObj.set, JObj.lookup?, hne]
  | cons hd tl ih =>
      obtain ⟨k2, v2⟩ := hd
      by_cases h2 : k2 = k
      · subst h2
        simp [JObj.set, JObj.lookup?, hne]
      · simp [JObj.set, JObj.lookup?, h2, ih]

/-- The computable rational floor agrees with the floor of the ordered
field structure. -/
theorem ratFloor_eq_intFloor (q : ℚ) : (q.floor : ℤ) = ⌊q⌋ :=
  (Rat.floor_def' q).trans Rat.floor_def.symm

/-- The rounding helper written through the ordered-field floor. -/
theorem jsRound_eq (q : ℚ) : jsRound q = ((⌊q + 1/2⌋ : ℤ) : ℚ) := by
  rw [jsRound, ratFloor_eq_intFloor]

/-- Rounding a number that is at least zero gives at least zero. -/
theorem jsRound_nonneg {q : ℚ} (h : 0 ≤ q) : 0 ≤ jsRound q := by
  rw [jsRound_eq]
  have h1 : (0 : ℤ) ≤ ⌊q + 1/2⌋ := by
    rw [Int.le_floor]
    push_cast
    linarith
  exact_mod_cast h1

/-- Rounding a number that is at most one hundred gives at most one
hundred. -/
theorem jsRound_le_hundred {q : ℚ} (h : q ≤ 100) : jsRound q ≤ 100 := by
  rw [jsRound_eq]
  have h1 : ⌊q + 1/2⌋ ≤ (100 : ℤ) := by
    rw [Int.floor_le_iff]
    push_cast
    linarith
  exact_mod_cast h1

/-- Two roundings of numbers less than ten apart differ by at most
ten. -/
theorem jsRound_sub_le {x y : ℚ} (h : x - y < 10) : jsRound x - jsRound y ≤ 10 := by
  rw [jsRound_eq, jsRound_eq]
  have h1 : ⌊x + 1/2⌋ ≤ ⌊y + 1/2⌋ + 10 := by
    have h2 : ⌊x + 1/2⌋ ≤ ⌊y + 1/2 + (10 : ℤ)⌋ := by
      apply Int.floor_le_floor
      push_cast
      linarith
    rwa [Int.floor_add_int] at h2
  have h3 : (⌊x + 1/2⌋ : ℚ) ≤ (⌊y + 1/2⌋ : ℚ) + 10 := by exact_mod_cast h1
  linarith

/-- The explicit minimum is at most its first argument. -/
theorem jsMin_le_left (a b : ℚ) : jsMin a b ≤ a := by
  unfold jsMin
  split
  · exact le_rfl
  · exact le_of_not_le (by assumption)

/-- The explicit minimum is at most its second argument. -/
theorem jsMin_le_right (a b : ℚ) : jsMin a b ≤ b := by
  unfold jsMin
  split
  · assumption
  · exact le_rfl

/-- The explicit minimum of two nonnegative numbers is nonnegative. -/
theorem jsMin_nonneg {a b : ℚ} (ha : 0 ≤ a) (hb : 0 ≤ b) : 0 ≤ jsMin a b := by
  unfold jsMin
  split <;> assumption

/-- The explicit maximum is bounded below by its first argument. -/
theorem jsMax_le_of_le {a b c : ℚ} (ha : a ≤ c) (hb : b ≤ c) : jsMax a b ≤ c := by
  unfold jsMax
  split <;> assumption

/-- The explicit maximum of two numbers is at least the first. -/
theorem le_jsMax_left (a b : ℚ) : a ≤ jsMax a b := by
  unfold jsMax
  split
  · assumption
  · exact le_rfl

/-- The numeric field values of an object, in order. -/
def numericFields (o : JObj) : List ℚ :=
  o.filterMap fun kv =>
    match kv.2 with
    | .num q => some q
    | _ => none

/-- Claim C1, counterexample: the recommendation of a MatchResult is not
a recomputed function of overallScore.  On the AI path the parsed
recommendation label is returned verbatim: a response with overallScore
10 and the label HIGHLY_RECOMMENDED is passed through unchanged, while
the documented thresholds demand not_recommended below 40. -/
theorem c1_counterexample :
    ((scoreProvider false ⟨"p1", 4, 5⟩ ⟨[], 5⟩
        (.ok "\x7b\"overallScore\": 10, \"recommendation\": \"HIGHLY_RECOMMENDED\"\x7d")).1.aiScore.lookup?
          "overallScore" = some (.num 10)) ∧
    ((scoreProvider false ⟨"p1", 4, 5⟩ ⟨[], 5⟩
        (.ok "\x7b\"overallScore\": 10, \"recommendation\": \"HIGHLY_RECOMMENDED\"\x7d")).1.aiScore.lookup?
          "recommendation" = some (.str "HIGHLY_RECOMMENDED")) :=
  of_decide_eq_true (by with_unfolding_all rfl)

/-- Claim C1, amended: the recommendation is never recomputed from
overallScore.  The fallback scorer sets it by a two-level rule on the
raw rating-based base score, RECOMMENDED above 80 and CONSIDER
otherwise; the AI path returns whatever recommendation label the parsed
response carries, verbatim. -/
theorem c1_recommendation_rule :
    (∀ (p : GProvider) (reqs : ProjectRequirements),
        (getFallbackProviderScore p reqs).aiScore.lookup? "recommendation" =
          some (.str (if p.rating / 5 * 100 > 80 then "RECOMMENDED" else "CONSIDER"))) ∧
    (∀ (text : String) (p : GProvider) (reqs : ProjectRequirements),
        (scoreProvider false p reqs (.ok text)).1.aiScore.lookup? "recommendation" =
          (parseAIResponse text).lookup? "recommendation") := by
  constructor
  · intro p reqs
    rfl
  · intro text p reqs
    exact JObj.lookup_set_ne _ _ _ _ (by decide)

/-- Claim C2: when the AI client is not configured with a valid
credential the constructor sets demo mode, and scoring any provider
short-circuits to the deterministic fallback without any network
attempt, returning the fallback-tagged result; this holds for every
provider, requirements and would-be call outcome. -/
theorem c2_unconfigured_no_network :
    ∀ (env : Option String) (p : GProvider) (reqs : ProjectRequirements) (call : AICall),
      isValidKey (constructorApiKey env) = false →
      scoreProvider (isDemoMode env) p reqs call = (getFallbackProviderScore p reqs, false) ∧
      (scoreProvider (isDemoMode env) p reqs call).1.aiScore.lookup? "fallback" =
        some (.bool true) := by
  intro env p reqs call h
  have hd : isDemoMode env = true := by rw [isDemoMode, h]; rfl
  rw [hd]
  exact ⟨rfl, rfl⟩

/-- Witness for claim C2 at a concrete unconfigured environment,
provider and call. -/
theorem c2_unconfigured_no_network_witness :
    scoreProvider (isDemoMode none) ⟨"p1", 4, 5⟩ ⟨[], 5⟩ (.ok "x") =
      (getFallbackProviderScore ⟨"p1", 4, 5⟩ ⟨[], 5⟩, false) ∧
    (scoreProvider (isDemoMode none) ⟨"p1", 4, 5⟩ ⟨[], 5⟩ (.ok "x")).1.aiScore.lookup?
      "fallback" = some (.bool true) :=
  c2_unconfigured_no_network none ⟨"p1", 4, 5⟩ ⟨[], 5⟩ (.ok "x") (by decide)

/-- Claim C3, counterexample: fallbackJobMatching is not deterministic
across calls.  Two executions on the identical provider and job, whose
Math.random draws are 0 and one half (both legitimate draws, as
recorded by the last two conjuncts), return different match lists. -/
theorem c3_counterexample :
    fallbackJobMatching (fun _ => 0) ⟨"Plumbing"⟩
        [⟨"p1", ["Plumbing"], some 4, some 3, ["verified"]⟩] ≠
      fallbackJobMatching (fun _ => 1/2) ⟨"Plumbing"⟩
        [⟨"p1", ["Plumbing"], some 4, some 3, ["verified"]⟩] ∧
    ((0:ℚ) ≤ 0 ∧ (0:ℚ) < 1) ∧ ((0:ℚ) ≤ 1/2 ∧ (1/2:ℚ) < 1) :=
  of_decide_eq_true (by with_unfolding_all rfl)

/-- Claim C3, amended: fallbackJobMatching is deterministic only up to
its Math.random variety factor.  With the draws fixed the function is a
pure function of its inputs, and across any two executions each
provider's matchScore moves by at most ten points, the scaled range of
the random factor. -/
theorem c3_random_deviation_bound :
    ∀ (job : OJob) (p : OProvider) (r1 r2 : ℚ),
      0 ≤ r1 → r1 < 1 → 0 ≤ r2 → r2 < 1 →
      (fallbackMatchEntry job p r1).matchScore -
          (fallbackMatchEntry job p r2).matchScore ≤ 10 ∧
      (fallbackMatchEntry job p r2).matchScore -
          (fallbackMatchEntry job p r1).matchScore ≤ 10 := by
  intro job p r1 r2 h1 h2 h3 h4
  have e : ∀ r : ℚ, (fallbackMatchEntry job p r).matchScore =
      jsRound (fallbackScoreBase job p + r * 10) := fun _ => rfl
  constructor
  · rw [e, e]
    apply jsRound_sub_le
    linarith
  · rw [e, e]
    apply jsRound_sub_le
    linarith

/-- Witness for claim C3 amended, at a concrete job, provider and pair
of draws. -/
theorem c3_random_deviation_bound_witness :
    (fallbackMatchEntry ⟨"Plumbing"⟩ ⟨"p1", ["Plumbing"], some 4, some 3, ["verified"]⟩
        0).matchScore -
      (fallbackMatchEntry ⟨"Plumbing"⟩ ⟨"p1", ["Plumbing"], some 4, some 3, ["verified"]⟩
        (99/100)).matchScore ≤ 10 ∧
    (fallbackMatchEntry ⟨"Plumbing"⟩ ⟨"p1", ["Plumbing"], some 4, some 3, ["verified"]⟩
        (99/100)).matchScore -
      (fallbackMatchEntry ⟨"Plumbing"⟩ ⟨"p1", ["Plumbing"], some 4, some 3, ["verified"]⟩
        0).matchScore ≤ 10 :=
  c3_random_deviation_bound ⟨"Plumbing"⟩ ⟨"p1", ["Plumbing"], some 4, some 3, ["verified"]⟩
    0 (99/100) (by norm_num) (by norm_num) (by norm_num) (by norm_num)

/-- Claim C4, counterexample: a parse failure does not fall back to the
deterministic scorer and does not produce a well-formed MatchResult.  A
response whose brace span is not valid JSON yields a success-tagged
result that differs from the deterministic fallback, carries no
overallScore at all, and wraps the default error structure. -/
theorem c4_counterexample :
    ((scoreProvider false ⟨"p1", 4, 5⟩ ⟨[], 5⟩ (.ok "\x7bbad\x7d")).1 ≠
        getFallbackProviderScore ⟨"p1", 4, 5⟩ ⟨[], 5⟩) ∧
    (scoreProvider false ⟨"p1", 4, 5⟩ ⟨[], 5⟩ (.ok "\x7bbad\x7d")).1.aiScore.lookup?
        "overallScore" = none ∧
    (scoreProvider false ⟨"p1", 4, 5⟩ ⟨[], 5⟩ (.ok "\x7bbad\x7d")).1.aiScore =
      [("error", .str "Unable to parse AI response"), ("fallback", .bool true),
       ("realAI", .bool true)] :=
  of_decide_eq_true (by with_unfolding_all rfl)

/-- Claim C4, amended: only a thrown model call (network error or
timeout) falls back to the deterministic scorer.  A parse failure
instead returns a success-tagged result wrapping the default error
structure when a brace span exists but is not valid JSON, or the raw
text wrapped as unstructured data when no brace span exists; neither is
the deterministic fallback result. -/
theorem c4_failure_paths :
    ∀ (p : GProvider) (reqs : ProjectRequirements),
      (scoreProvider false p reqs .failure).1 = getFallbackProviderScore p reqs ∧
      (∀ (text s : String), braceSpan text = some s → jsonParse s = none →
        (scoreProvider false p reqs (.ok text)).1.aiScore =
          JObj.set getDefaultStructure "realAI" (.bool true)) ∧
      (∀ text : String, braceSpan text = none →
        (scoreProvider false p reqs (.ok text)).1.aiScore =
          JObj.set (textToStructuredData text) "realAI" (.bool true)) := by
  intro p reqs
  refine ⟨rfl, ?_, ?_⟩
  · intro text s hb hj
    show (parseAIResponse text).set "realAI" (.bool true) = _
    rw [parseAIResponse, hb]
    dsimp only
    rw [hj]
  · intro text hb
    show (parseAIResponse text).set "realAI" (.bool true) = _
    rw [parseAIResponse, hb]

/-- Witness for claim C4 amended: the thrown-call branch and the
invalid-JSON branch at concrete inputs. -/
theorem c4_failure_paths_witness :
    (scoreProvider false ⟨"p1", 4, 5⟩ ⟨[], 5⟩ .failure).1 =
        getFallbackProviderScore ⟨"p1", 4, 5⟩ ⟨[], 5⟩ ∧
    (scoreProvider false ⟨"p1", 4, 5⟩ ⟨[], 5⟩ (.ok "\x7bbad\x7d")).1.aiScore =
      JObj.set getDefaultStructure "realAI" (.bool true) :=
  ⟨(c4_failure_paths ⟨"p1", 4, 5⟩ ⟨[], 5⟩).1,
   (c4_failure_paths ⟨"p1", 4, 5⟩ ⟨[], 5⟩).2.1 "\x7bbad\x7d" "\x7bbad\x7d"
     (of_decide_eq_true (by with_unfolding_all rfl))
     (of_decide_eq_true (by with_unfolding_all rfl))⟩

/-- Claim C5, counterexample: numeric fields from an AI response are not
clamped by the provider-scoring path.  A response with overallScore 150
is returned with overallScore 150, outside the documented range. -/
theorem c5_counterexample :
    (scoreProvider false ⟨"p1", 4, 5⟩ ⟨[], 5⟩
        (.ok "\x7b\"overallScore\": 150\x7d")).1.aiScore.lookup?
      "overallScore" = some (.num 150) ∧ ¬((150:ℚ) ≤ 100) :=
  of_decide_eq_true (by with_unfolding_all rfl)

/-- Claim C5, amended: clamping happens only in the job-matching
validation step, whose scores all land in the range zero to one hundred;
the fallback provider scorer stays in range whenever the rating is
between zero and five and the experience is nonnegative; the AI path of
scoreProvider passes numeric fields through unclamped. -/
theorem c5_partial_clamping :
    (∀ (aiMatches : List RawMatch) (m : JobMatch), m ∈ validateMatches aiMatches →
        0 ≤ m.matchScore ∧ m.matchScore ≤ 100) ∧
    (∀ (p : GProvider) (reqs : ProjectRequirements),
        0 ≤ p.rating → p.rating ≤ 5 → 0 ≤ p.yearsExperience →
        ∀ v ∈ numericFields (getFallbackProviderScore p reqs).aiScore,
          0 ≤ v ∧ v ≤ 100) := by
  constructor
  · intro aiMatches m hm
    rw [validateMatches] at hm
    have hm1 := List.mem_of_mem_take hm
    have hm2 := (List.perm_insertionSort matchGe _).mem_iff.mp hm1
    obtain ⟨raw, _, rfl⟩ := List.mem_map.mp hm2
    refine ⟨le_jsMax_left 0 _, jsMax_le_of_le (by norm_num) ?_⟩
    exact jsMin_le_left 100 raw.matchScore
  · intro p reqs h0 h5 hy v hv
    have hbl : 0 ≤ p.rating / 5 * 100 := by positivity
    have hbu : p.rating / 5 * 100 ≤ 100 := by linarith
    have hv2 : v = jsRound (p.rating / 5 * 100) ∨ v = 75 ∨
        v = jsMin (p.yearsExperience * 5) 100 := by
      simp only [numericFields, getFallbackProviderScore, List.filterMap] at hv
      simp only [List.mem_cons, List.not_mem_nil, or_false] at hv
      tauto
    rcases hv2 with h | h | h
    · subst h
      exact ⟨jsRound_nonneg hbl, jsRound_le_hundred hbu⟩
    · subst h
      norm_num
    · subst h
      refine ⟨jsMin_nonneg (by positivity) (by norm_num), jsMin_le_right _ _⟩

/-- Witness for claim C5 amended, at a concrete raw match list and a
concrete in-range provider. -/
theorem c5_partial_clamping_witness :
    (0 ≤ (JobMatch.mk "p1" 100 [] [] true).matchScore ∧
      (JobMatch.mk "p1" 100 [] [] true).matchScore ≤ 100) ∧
    (0 ≤ (80:ℚ) ∧ (80:ℚ) ≤ 100) := by
  constructor
  · exact c5_partial_clamping.1 [⟨"p1", 250, none, none⟩] ⟨"p1", 100, [], [], true⟩
      (of_decide_eq_true (by with_unfolding_all rfl))
  · exact c5_partial_clamping.2 ⟨"p1", 4, 5⟩ ⟨[], 5⟩ (by norm_num) (by norm_num)
      (by norm_num) 80 (of_decide_eq_true (by with_unfolding_all rfl))

/-- The qualification predicate holds exactly on successful results with
a numeric overallScore of at least 60; in particular a result scoring
exactly 60 qualifies. -/
theorem qualifies_iff (s : ScoreResult) :
    qualifies s = true ↔
      (s.success = true ∧ ∃ q : ℚ,
        s.aiScore.lookup? "overallScore" = some (.num q) ∧ 60 ≤ q) := by
  rw [qualifies, Bool.and_eq_true]
  refine and_congr_right fun _ => ?_
  cases hv : s.aiScore.lookup? "overallScore" with
  | none => simp [overallAtLeast60]
  | some jv => cases jv <;> simp [overallAtLeast60]

/-- The sort stage of findBestMatches yields a list sorted descending by
overallScore. -/
theorem sortMatches_sorted (l : List ScoreResult) :
    (sortMatches l).Sorted scoreGe :=
  List.sorted_insertionSort scoreGe l

/-- Inserting into a sorted run: restricted to any one overallScore
value, ordered insertion prepends the new element when it carries that
value and otherwise changes nothing, because insertion never crosses an
element of equal score. -/
theorem filter_orderedInsert_scoreKey (q : ℚ) (a : ScoreResult) (l : List ScoreResult) :
    (List.orderedInsert scoreGe a l).filter (fun s => scoreKey s == q) =
      if scoreKey a == q then a :: l.filter (fun s => scoreKey s == q)
      else l.filter (fun s => scoreKey s == q) := by
  induction l with
  | nil =>
      by_cases ha : scoreKey a == q <;>
        simp [List.orderedInsert, List.filter_cons, ha]
  | cons b bs ih =>
      rw [List.orderedInsert]
      by_cases hr : scoreGe a b
      · rw [if_pos hr]
        by_cases ha : scoreKey a == q <;>
          simp [List.filter_cons, ha]
      · rw [if_neg hr]
        have hlt : scoreKey a < scoreKey b := lt_of_not_le hr
        by_cases ha : scoreKey a == q
        · have haq : scoreKey a = q := by simpa using ha
          have hbq : ¬(scoreKey b == q) = true := by
            simp only [beq_iff_eq]
            intro hbq
            rw [haq, ← hbq] at hlt
            exact lt_irrefl _ hlt
          simp [List.filter_cons, hbq, ih, ha]
        · by_cases hb : scoreKey b == q <;>
            simp [List.filter_cons, hb, ih, ha]

/-- Stability of the sort stage: restricting the sorted output to the
results carrying any one overallScore value recovers exactly the input
order of those results. -/
theorem filter_sortMatches (q : ℚ) (l : List ScoreResult) :
    (sortMatches l).filter (fun s => scoreKey s == q) =
      l.filter (fun s => scoreKey s == q) := by
  induction l with
  | nil => rfl
  | cons a l ih =>
      rw [sortMatches, List.insertionSort, filter_orderedInsert_scoreKey]
      rw [show List.insertionSort scoreGe l = sortMatches l from rfl, ih]
      by_cases ha : scoreKey a == q <;> simp [List.filter_cons, ha]

/-- Claim C6: over any scored candidate list, the orchestration keeps
exactly the successful results whose numeric overallScore is at least 60
(so a result scoring exactly 60 is kept by the threshold), sorts the
kept results descending by overallScore, and returns at most ten of
them, each drawn from the input. -/
theorem c6_qualify_sort_truncate :
    ∀ providerScores : List ScoreResult,
      (∀ s ∈ rankMatches providerScores,
          s ∈ providerScores ∧ s.success = true ∧
          ∃ q : ℚ, s.aiScore.lookup? "overallScore" = some (.num q) ∧ 60 ≤ q) ∧
      (rankMatches providerScores).Sorted scoreGe ∧
      (rankMatches providerScores).length ≤ 10 ∧
      (∀ s : ScoreResult, qualifies s = true ↔
          (s.success = true ∧ ∃ q : ℚ,
            s.aiScore.lookup? "overallScore" = some (.num q) ∧ 60 ≤ q)) := by
  intro ps
  refine ⟨?_, ?_, ?_, qualifies_iff⟩
  · intro s hs
    have h1 : s ∈ sortMatches (ps.filter qualifies) := List.mem_of_mem_take hs
    have h2 : s ∈ ps.filter qualifies :=
      (List.perm_insertionSort scoreGe _).mem_iff.mp h1
    have h3 := List.mem_filter.mp h2
    have hq := (qualifies_iff s).mp h3.2
    exact ⟨h3.1, hq.1, hq.2⟩
  · exact List.Pairwise.sublist (List.take_sublist 10 _) (sortMatches_sorted _)
  · exact List.length_take_le 10 _

/-- Witness for claim C6 at a concrete single-result list whose
overallScore is exactly the threshold 60. -/
theorem c6_qualify_sort_truncate_witness :
    (rankMatches [getFallbackProviderScore ⟨"p1", 3, 1⟩ ⟨[], 5⟩]).Sorted scoreGe ∧
    (rankMatches [getFallbackProviderScore ⟨"p1", 3, 1⟩ ⟨[], 5⟩]).length ≤ 10 ∧
    qualifies (getFallbackProviderScore ⟨"p1", 3, 1⟩ ⟨[], 5⟩) = true :=
  ⟨(c6_qualify_sort_truncate [getFallbackProviderScore ⟨"p1", 3, 1⟩ ⟨[], 5⟩]).2.1,
   (c6_qualify_sort_truncate [getFallbackProviderScore ⟨"p1", 3, 1⟩ ⟨[], 5⟩]).2.2.1,
   ((c6_qualify_sort_truncate [getFallbackProviderScore ⟨"p1", 3, 1⟩ ⟨[], 5⟩]).2.2.2
       (getFallbackProviderScore ⟨"p1", 3, 1⟩ ⟨[], 5⟩)).mpr
     ⟨rfl, 60, of_decide_eq_true (by with_unfolding_all rfl), by norm_num⟩⟩

/-- Claim C7, counterexample: ties are not broken by rating or
experience.  Two fallback results with equal overallScore 90 and equal
ratings, the second from a provider with strictly more experience, come
back in insertion order with the less-experienced provider first, while
the claimed ordering requires the more-experienced one first. -/
theorem c7_counterexample :
    rankMatches [getFallbackProviderScore ⟨"p1", 9/2, 2⟩ ⟨[], 5⟩,
                 getFallbackProviderScore ⟨"p2", 9/2, 20⟩ ⟨[], 5⟩] =
      [getFallbackProviderScore ⟨"p1", 9/2, 2⟩ ⟨[], 5⟩,
       getFallbackProviderScore ⟨"p2", 9/2, 20⟩ ⟨[], 5⟩] ∧
    scoreKey (getFallbackProviderScore ⟨"p1", 9/2, 2⟩ ⟨[], 5⟩) =
      scoreKey (getFallbackProviderScore ⟨"p2", 9/2, 20⟩ ⟨[], 5⟩) ∧
    getFallbackProviderScore ⟨"p1", 9/2, 2⟩ ⟨[], 5⟩ ≠
      getFallbackProviderScore ⟨"p2", 9/2, 20⟩ ⟨[], 5⟩ ∧
    ((2:ℚ) < 20) :=
  of_decide_eq_true (by with_unfolding_all rfl)

/-- Claim C7, amended: the ranked results are ordered descending by
overallScore with ties broken by insertion order alone (the sort is
stable and consults nothing but overallScore), which still makes the
output ordering fully deterministic for every input list. -/
theorem c7_sort_score_only_stable :
    ∀ l : List ScoreResult,
      (sortMatches l).Sorted scoreGe ∧
      ∀ q : ℚ, (sortMatches l).filter (fun s => scoreKey s == q) =
        l.filter (fun s => scoreKey s == q) :=
  fun l => ⟨sortMatches_sorted l, fun q => filter_sortMatches q l⟩

/-- Claim C9: whenever no scored result qualifies (in particular when
the provider list is empty), findBestMatches returns a valid empty
result object with the no-qualified-providers summary and the suggestion
list, rather than an error. -/
theorem c9_empty_insights :
    ∀ (demoMode : Bool) (reqs : ProjectRequirements) (providers : List GProvider)
      (calls : GProvider → AICall),
      rankMatches (providers.map fun p => (scoreProvider demoMode p reqs (calls p)).1) = [] →
      findBestMatches demoMode reqs providers calls =
        ⟨true, [],
          ⟨"No qualified providers found for this project.",
            ["Expand search criteria", "Consider adjusting budget",
             "Break project into phases"], none, none, none, []⟩,
          providers.length, 0⟩ := by
  intro d reqs ps calls h
  simp only [findBestMatches, h]
  rfl

/-- Witness for claim C9 at the empty provider list. -/
theorem c9_empty_insights_witness :
    findBestMatches true ⟨[], 5⟩ [] (fun _ => .failure) =
      ⟨true, [],
        ⟨"No qualified providers found for this project.",
          ["Expand search criteria", "Consider adjusting budget",
           "Break project into phases"], none, none, none, []⟩,
        0, 0⟩ :=
  c9_empty_insights true ⟨[], 5⟩ [] (fun _ => .failure) rfl

/-- The Haversine intermediate quantity is symmetric in its two
points. -/
theorem haversineA_symm (lat1 lng1 lat2 lng2 : ℝ) :
    haversineA lat1 lng1 lat2 lng2 = haversineA lat2 lng2 lat1 lng1 := by
  simp only [haversineA, toRadians]
  have h1 : ∀ x y : ℝ,
      Real.sin ((x - y) * (Real.pi / 180) / 2) =
        -Real.sin ((y - x) * (Real.pi / 180) / 2) := by
    intro x y
    have hx : (x - y) * (Real.pi / 180) / 2 = -((y - x) * (Real.pi / 180) / 2) := by
      ring
    rw [hx, Real.sin_neg]
  rw [h1 lat2 lat1, h1 lng2 lng1]
  ring_nf

/-- The Haversine quantity at a pair of antipodal points on the
meridian with longitude 360. -/
theorem haversineA_antipodal : haversineA (-90) 360 90 360 = 1 := by
  simp only [haversineA, toRadians]
  have h1 : (90 - (-90 : ℝ)) * (Real.pi / 180) / 2 = Real.pi / 2 := by ring
  have h2 : ((360:ℝ) - 360) * (Real.pi / 180) / 2 = 0 := by ring
  rw [h1, h2, Real.sin_pi_div_two, Real.sin_zero]
  ring_nf

/-- The arctangent of the vertical direction. -/
theorem atan2_one_zero : atan2 1 0 = Real.pi / 2 := by
  unfold atan2
  rw [if_neg (lt_irrefl 0), if_neg (lt_irrefl 0), if_pos one_pos]

/-- Closed form of the distance between the two antipodal test
points. -/
theorem calculateDistance_antipodal :
    calculateDistance (-90) 360 90 360 =
      ((⌊(637100:ℝ) * Real.pi + 1/2⌋ : ℤ) : ℝ) / 100 := by
  simp only [calculateDistance, haversineA_antipodal, jsRound2]
  rw [show (1:ℝ) - 1 = 0 by ring, Real.sqrt_zero, Real.sqrt_one, atan2_one_zero]
  congr 2
  ring_nf

/-- The antipodal test distance exceeds 15 km and stays below
30000 km. -/
theorem calculateDistance_antipodal_bounds :
    15 < calculateDistance (-90) 360 90 360 ∧
      calculateDistance (-90) 360 90 360 ≤ 30000 := by
  rw [calculateDistance_antipodal]
  have hpi3 : (3:ℝ) < Real.pi := Real.pi_gt_three
  have hpi4 : Real.pi < 3.15 := Real.pi_lt_d2
  have hfl : ((637100:ℝ) * Real.pi + 1/2) - 1 < (⌊(637100:ℝ) * Real.pi + 1/2⌋ : ℝ) :=
    Int.sub_one_lt_floor _
  have hfu : ((⌊(637100:ℝ) * Real.pi + 1/2⌋ : ℤ) : ℝ) ≤ (637100:ℝ) * Real.pi + 1/2 :=
    Int.floor_le _
  constructor
  · rw [lt_div_iff₀ (by norm_num : (0:ℝ) < 100)]
    nlinarith
  · rw [div_le_iff₀ (by norm_num : (0:ℝ) < 100)]
    nlinarith

/-- Claim C8, counterexample: the location filter does not widen the
radius to the provider's self-declared service radius.  A provider whose
service radius (30000 km) covers its distance from the center is
excluded because that distance exceeds the 15 km search radius alone,
although the claimed rule distance at most max of the two radii would
include it. -/
theorem c8_counterexample :
    findNearbyProviders (-90) 360 [⟨"far", some (90, 360), 30000⟩] 15 = [] ∧
    calculateDistance (-90) 360 90 360 ≤
      max 15 (GeoProvider.mk "far" (some (90, 360)) 30000).serviceRadiusKm := by
  constructor
  · have hne : ¬((90:ℝ) = 0 ∨ (360:ℝ) = 0) := by norm_num
    have hd : ¬(calculateDistance (-90) 360 90 360 ≤ 15) :=
      not_le.mpr calculateDistance_antipodal_bounds.1
    rw [findNearbyProviders]
    rw [List.filterMap_cons]
    dsimp only
    rw [if_neg hne]
    rw [List.filterMap_nil]
    rw [List.filter_cons]
    rw [decide_eq_false hd]
    rfl
  · exact le_max_of_le_right calculateDistance_antipodal_bounds.2

/-- Claim C8, amended: a provider passes the location constraint of
findNearbyProviders exactly when it has truthy coordinates and the
Haversine distance from the center to those coordinates is at most
radiusKm, the boundary being inclusive; the provider's self-declared
service radius is never consulted. -/
theorem c8_radius_membership :
    ∀ (centerLat centerLng radiusKm : ℝ) (providers : List GeoProvider)
      (r : NearbyResult),
      r ∈ findNearbyProviders centerLat centerLng providers radiusKm ↔
        ∃ p ∈ providers, ∃ lat lng : ℝ,
          p.coords = some (lat, lng) ∧ ¬(lat = 0 ∨ lng = 0) ∧
          r.provider = p ∧
          r.distance = calculateDistance centerLat centerLng lat lng ∧
          r.distance ≤ radiusKm := by
  intro clat clng rad ps r
  rw [findNearbyProviders, (List.perm_insertionSort distLe _).mem_iff,
    List.mem_filter, List.mem_filterMap]
  constructor
  · rintro ⟨⟨p, hp, hf⟩, hle⟩
    rcases hc : p.coords with _ | ⟨lat, lng⟩
    · rw [hc] at hf
      cases hf
    · rw [hc] at hf
      dsimp only at hf
      by_cases hz : lat = 0 ∨ lng = 0
      · rw [if_pos hz] at hf
        cases hf
      · rw [if_neg hz] at hf
        have hr := Option.some.inj hf
        refine ⟨p, hp, lat, lng, hc, hz, ?_, ?_, of_decide_eq_true hle⟩
        · rw [← hr]
        · rw [← hr]
  · rintro ⟨p, hp, lat, lng, hc, hz, hrp, hrd, hle⟩
    have hr : r = ⟨p, calculateDistance clat clng lat lng⟩ := by
      cases r
      simp only [NearbyResult.mk.injEq]
      exact ⟨hrp, hrd⟩
    refine ⟨⟨p, hp, ?_⟩, decide_eq_true hle⟩
    rw [hc]
    dsimp only
    rw [if_neg hz, hr]

/-- Claim C10: the Haversine distance function is symmetric in its two
coordinate pairs. -/
theorem c10_distance_symmetric :
    ∀ lat1 lng1 lat2 lng2 : ℝ,
      calculateDistance lat1 lng1 lat2 lng2 = calculateDistance lat2 lng2 lat1 lng1 := by
  intro a b c d
  simp only [calculateDistance]
  rw [haversineA_symm]
